import Mathlib

/-!
Shallow embedding of the tour recommendation service (app/services/recommendation_service.py,
app/services/weather_service.py, app/utils/cache.py, app/models) and proofs about its
candidate-selection, scoring, ranking, caching and fallback behaviour.

Conventions of the embedding:
* Python floats are modelled as rationals.
* The catalog store is modelled by a `List Tour` together with a distance oracle
  `GeoFn` standing for the geoDistance function evaluated by the store.
* A query execution that may fail is modelled as `Except Unit` data passed in
  (a `Bool` failure flag per tier for the selector).
* Python truthiness of optional values is modelled explicitly (`strTruthy`, `qTruthy`).
-/

namespace Voyager

/-- Distance oracle: geoDistance(lon, lat, row_long, row_lat) in meters. -/
abbrev GeoFn := ℚ → ℚ → ℚ → ℚ → ℚ

/-- A row of the tour_info table (models/tour.py TourBase, enum values as strings).
The rating field models tour.get("rating", 0): absent in rows without the column. -/
structure Tour where
  id : Int
  name : String
  lat : ℚ
  long : ℚ
  pricing_range_usd : String
  category_name : String
  subcategory_name : String
  time_of_day_trip_type : List String
  tour_type : String
  season : List String
  group_type_suitability : List String
  rating : Option ℚ
deriving Repr, DecidableEq

/-- models/recommendation.py UserPreferences (enum values as strings). -/
structure UserPreferences where
  category : Option String
  subcategory : Option String
  price_range : Option String
  tour_type : Option String
deriving Repr, DecidableEq

/-- models/recommendation.py TourFeedback. -/
structure TourFeedback where
  liked_tours : Option (List Int)
  disliked_tours : Option (List Int)
deriving Repr, DecidableEq

/-- models/recommendation.py SmartRecommendationRequest; local_datetime is kept
as its hour and month, the only components the pipeline reads. -/
structure SmartRecommendationRequest where
  lat : Option ℚ
  lon : Option ℚ
  hour : Nat
  month : Nat
  preferences : Option UserPreferences
  feedback : Option TourFeedback
  limit : Nat
deriving Repr, DecidableEq

/-- Weather data returned by weather_service.get_current_weather. -/
structure WeatherInfo where
  condition : String
  temperature_celsius : ℚ
deriving Repr, DecidableEq

/-- The context dict built by _derive_context. -/
structure DerivedContext where
  weather : Option WeatherInfo
  time_of_day : String
  season : String
deriving Repr, DecidableEq

/-- Python truthiness of an optional string (None and the empty string are falsy). -/
def strTruthy : Option String → Bool
  | none => false
  | some s => !(s == "")

/-- Python truthiness of an optional float (None and 0.0 are falsy). -/
def qTruthy : Option ℚ → Bool
  | none => false
  | some x => !(x == 0)

/-- Time-of-day bucketing shared by _derive_context and _get_time_compatibility_score. -/
def time_of_day_of (hour : Nat) : String :=
  if 5 ≤ hour ∧ hour < 12 then "morning"
  else if 12 ≤ hour ∧ hour < 17 then "afternoon"
  else if 17 ≤ hour ∧ hour < 21 then "evening"
  else "night"

/-- Season derivation in _derive_context (Northern hemisphere convention). -/
def season_of (month : Nat) : String :=
  if month = 12 ∨ month = 1 ∨ month = 2 then "Winter"
  else if month = 3 ∨ month = 4 ∨ month = 5 then "Spring"
  else if month = 6 ∨ month = 7 ∨ month = 8 then "Summer"
  else "Autumn"

/-- The SQL predicate produced by _build_distance_query, evaluated on a row:
geoDistance(lon, lat, row_long, row_lat) <= max_distance_km * 1000. -/
def build_distance_query (g : GeoFn) (lat lon max_distance_km : ℚ) (t : Tour) : Bool :=
  decide (g lon lat t.long t.lat ≤ max_distance_km * 1000)

/-- _derive_context: weather is fetched only when both coordinates are present;
the weather call result (success or failure) is passed in as data. A failing
weather call is not caught anywhere in the service, so it propagates. -/
def derive_context (req : SmartRecommendationRequest)
    (weather_result : Except Unit WeatherInfo) : Except Unit DerivedContext :=
  match req.lat, req.lon with
  | some _, some _ =>
    match weather_result with
    | Except.error e => Except.error e
    | Except.ok w =>
      Except.ok ⟨some w, time_of_day_of req.hour, season_of req.month⟩
  | _, _ => Except.ok ⟨none, time_of_day_of req.hour, season_of req.month⟩

/-- _get_weather_filter, as a row predicate (None means no constraint added). -/
def weather_filter (condition : String) : Option (Tour → Bool) :=
  if condition == "Rain" then some (fun t => t.tour_type == "indoor")
  else if condition == "Clear" ∨ condition == "Clouds" then
    some (fun t => t.tour_type == "outdoor" || t.tour_type == "both")
  else none

/-- The weather clause of a tier: skipped when the context has no weather or
when _get_weather_filter returns None. -/
def weather_pred (w : Option WeatherInfo) (t : Tour) : Bool :=
  match w with
  | none => true
  | some wi =>
    match weather_filter wi.condition with
    | none => true
    | some p => p t

/-- _get_preferences_filter as a row predicate (clauses are added only for
truthy fields; an absent clause imposes no constraint). -/
def preferences_filter (p : UserPreferences) (t : Tour) : Bool :=
  (if p.tour_type.isSome then t.tour_type == p.tour_type.getD "" else true) &&
  (if strTruthy p.category then t.category_name == p.category.getD "" else true) &&
  (if p.price_range.isSome then t.pricing_range_usd == p.price_range.getD "" else true)

/-- The preferences clause of a tier (no constraint when preferences are absent). -/
def prefs_pred (prefs : Option UserPreferences) (t : Tour) : Bool :=
  match prefs with
  | none => true
  | some p => preferences_filter p t

/-- The disliked tour ids carried by the request feedback ([] when absent). -/
def disliked_ids (fb : Option TourFeedback) : List Int :=
  match fb with
  | none => []
  | some f => f.disliked_tours.getD []

/-- _get_feedback_filter as a row predicate: id NOT IN disliked_tours is added
only when feedback is present and the disliked list is truthy (nonempty). -/
def feedback_pred (fb : Option TourFeedback) (t : Tour) : Bool :=
  if (disliked_ids fb).isEmpty then true else !((disliked_ids fb).contains t.id)

/-- The radius clause of a tier: present only when both coordinates are given. -/
def radius_pred (g : GeoFn) (req : SmartRecommendationRequest) (km : ℚ) (t : Tour) : Bool :=
  match req.lat, req.lon with
  | some la, some lo => build_distance_query g la lo km t
  | _, _ => true

/-- Tier 1 of _get_candidate_tours: 10 km radius, weather, time-of-day,
preferences and disliked-tour exclusion, conjoined. -/
def tier1_pred (g : GeoFn) (req : SmartRecommendationRequest) (ctx : DerivedContext)
    (t : Tour) : Bool :=
  radius_pred g req 10 t && weather_pred ctx.weather t &&
  t.time_of_day_trip_type.contains ctx.time_of_day &&
  prefs_pred req.preferences t && feedback_pred req.feedback t

/-- Tier 2 of _get_candidate_tours: same filters with the radius relaxed to 30 km. -/
def tier2_pred (g : GeoFn) (req : SmartRecommendationRequest) (ctx : DerivedContext)
    (t : Tour) : Bool :=
  radius_pred g req 30 t && weather_pred ctx.weather t &&
  t.time_of_day_trip_type.contains ctx.time_of_day &&
  prefs_pred req.preferences t && feedback_pred req.feedback t

/-- Tier 3 of _get_candidate_tours: the 10 km radius clause alone. -/
def tier3_pred (g : GeoFn) (req : SmartRecommendationRequest) (t : Tour) : Bool :=
  radius_pred g req 10 t

/-- One tier query execution: either a store failure (fail flag) or the ids of
the rows satisfying the tier predicate. -/
def exec_tier (fail : Bool) (pred : Tour → Bool) (catalog : List Tour) :
    Except Unit (List Int) :=
  if fail then Except.error () else Except.ok ((catalog.filter pred).map (fun t => t.id))

/-- The try/except around one tier: a failure or an empty result falls through
to the next stage, a nonempty result is returned. -/
def tier_step (r : Except Unit (List Int)) (next : List Int) : List Int :=
  match r with
  | Except.error _ => next
  | Except.ok l => if l.isEmpty then next else l

/-- The guard request.lat is not None and request.lon is not None. -/
def has_location (req : SmartRecommendationRequest) : Bool :=
  req.lat.isSome && req.lon.isSome

/-- _get_candidate_tours: tiered fallback. Tier 1 is always attempted; tiers 2
and 3 are attempted only when both coordinates are present (their blocks sit
under the location guard in the source). q1, q2, q3 are the per-tier store
failure flags. -/
def get_candidate_tours (catalog : List Tour) (g : GeoFn)
    (req : SmartRecommendationRequest) (ctx : DerivedContext)
    (q1 q2 q3 : Bool) : List Int :=
  let after2 :=
    if has_location req then tier_step (exec_tier q3 (tier3_pred g req) catalog) [] else []
  let after1 :=
    if has_location req then
      tier_step (exec_tier q2 (tier2_pred g req ctx) catalog) after2
    else after2
  tier_step (exec_tier q1 (tier1_pred g req ctx) catalog) after1

/-- The distance sub-score of _calculate_tour_score (0-25 points); the fetched
row always carries distance_meters, the sub-score applies only when the request
has both coordinates. -/
def location_score (req : SmartRecommendationRequest) (distance_meters : ℚ) : ℚ :=
  match req.lat, req.lon with
  | some _, some _ =>
    let distance_km := distance_meters / 1000
    if distance_km ≤ 5 then 25
    else if distance_km ≤ 10 then 20
    else if distance_km ≤ 20 then 15
    else if distance_km ≤ 50 then 10
    else 5
  | _, _ => 0

/-- The preference-matching sub-score of _calculate_tour_score (0-30 points). -/
def preference_score (t : Tour) (prefs : Option UserPreferences) : ℚ :=
  match prefs with
  | none => 0
  | some p =>
    (if p.tour_type.isSome && (t.tour_type == p.tour_type.getD "") then 10 else 0) +
    (if strTruthy p.category && (t.category_name == p.category.getD "") then 10 else 0) +
    (if p.price_range.isSome && (t.pricing_range_usd == p.price_range.getD "") then 10 else 0)

/-- _get_weather_compatibility_score (0-15 points); wcond is the condition read
from the weather context attached to the request, when any. -/
def get_weather_compatibility_score (t : Tour) (wcond : Option String) : ℚ :=
  let tt := t.tour_type
  if !(strTruthy wcond) then
    if tt == "indoor" then 10
    else if tt == "outdoor" then 8
    else if tt == "both" then 12
    else 5
  else
    let c := wcond.getD ""
    if c == "Rain" then
      if tt == "indoor" then 15 else if tt == "both" then 12 else 5
    else if c == "Clear" ∨ c == "Clouds" then
      if tt == "outdoor" then 15 else if tt == "both" then 12 else 8
    else
      if tt == "both" then 12 else if tt == "indoor" then 10 else 8

/-- _get_time_compatibility_score (0-15 points). -/
def get_time_compatibility_score (t : Tour) (req : SmartRecommendationRequest) : ℚ :=
  let current_time := time_of_day_of req.hour
  let types := t.time_of_day_trip_type
  if types.contains current_time then 15
  else if types.contains "morning" || types.contains "afternoon" ||
      types.contains "evening" || types.contains "night" then 10
  else 5

/-- _get_feedback_score: a fixed -50 for a disliked tour; the liked-tour boost
compares against placeholder empty sets, as the source does. -/
def get_feedback_score (t : Tour) (req : SmartRecommendationRequest) : ℚ :=
  match req.feedback with
  | none => 0
  | some fb =>
    if !(fb.disliked_tours.getD []).isEmpty && (fb.disliked_tours.getD []).contains t.id then
      -50
    else
      let liked_tour_categories : List String := []
      let liked_tour_types : List String := []
      if !(fb.liked_tours.getD []).isEmpty then
        (if liked_tour_categories.contains t.category_name then (10 : ℚ) else 0) +
        (if liked_tour_types.contains t.tour_type then (5 : ℚ) else 0)
      else 0

/-- _calculate_tour_score: additive sub-scores, a +5 rating bonus, then capped
at 100 by min. -/
def calculate_tour_score (t : Tour) (distance_meters : ℚ)
    (req : SmartRecommendationRequest) (wcond : Option String) : ℚ :=
  let score :=
    location_score req distance_meters +
    preference_score t req.preferences +
    get_weather_compatibility_score t wcond +
    get_time_compatibility_score t req +
    get_feedback_score t req +
    (if (t.rating.getD 0) > 4 then (5 : ℚ) else 0)
  min score 100

/-- Stable descending insertion by key: x is placed after every earlier element
with a strictly larger key and before the first element whose key is not larger,
so elements with equal keys keep their input order, as Python list.sort with
reverse=True does. -/
def insert_desc {α : Type} (k : α → ℚ) (x : α) : List α → List α
  | [] => [x]
  | y :: ys => if k x < k y then y :: insert_desc k x ys else x :: y :: ys

/-- Stable descending sort by key, modelling list.sort(key=score, reverse=True). -/
def sort_desc {α : Type} (k : α → ℚ) : List α → List α
  | [] => []
  | x :: xs => insert_desc k x (sort_desc k xs)

/-- The score key used by _rank_and_select_tours on a fetched row. -/
def row_score (req : SmartRecommendationRequest) (wcond : Option String)
    (r : Tour × ℚ) : ℚ :=
  calculate_tour_score r.1 r.2 req wcond

/-- _rank_and_select_tours on the fetched rows (each a tour with its
distance_meters column): stable sort by score descending, truncate to limit. -/
def rank_and_select_tours (rows : List (Tour × ℚ))
    (req : SmartRecommendationRequest) (wcond : Option String) : List (Tour × ℚ) :=
  (sort_desc (row_score req wcond) rows).take req.limit

/-- The ranking query of _rank_and_select_tours: rows for the candidate ids with
the distance_meters column computed from (request.lat or 0, request.lon or 0). -/
def fetch_rows (catalog : List Tour) (g : GeoFn)
    (req : SmartRecommendationRequest) (ids : List Int) : List (Tour × ℚ) :=
  (catalog.filter (fun t => ids.contains t.id)).map
    (fun t => (t, g (req.lon.getD 0) (req.lat.getD 0) t.long t.lat))

/-- get_smart_recommendations: derive context, select candidates, rank, attach
reasons. The weather call outcome and the reason generator are collaborators
passed in as data; a context failure propagates. -/
def get_smart_recommendations (catalog : List Tour) (g : GeoFn)
    (weather_result : Except Unit WeatherInfo)
    (reason_of : Tour × ℚ → String)
    (req : SmartRecommendationRequest) (q1 q2 q3 : Bool) :
    Except Unit (List ((Tour × ℚ) × String) × DerivedContext) :=
  match derive_context req weather_result with
  | Except.error e => Except.error e
  | Except.ok ctx =>
    let candidate_ids := get_candidate_tours catalog g req ctx q1 q2 q3
    if candidate_ids.isEmpty then Except.ok ([], ctx)
    else
      let wcond := ctx.weather.map (fun w => w.condition)
      let final_tours := rank_and_select_tours (fetch_rows catalog g req candidate_ids) req wcond
      Except.ok (final_tours.map (fun r => (r, reason_of r)), ctx)

/-- The fallback returned by _generate_recommendation_reason_cached when no
OpenAI key is configured. -/
def fallback_no_credential : String :=
  "Recommended based on your preferences and current context."

/-- The fallback returned by _generate_recommendation_reason_cached when the
OpenAI call raises. -/
def fallback_on_error : String :=
  "This tour is a great fit based on your location and preferences."

/-- _generate_recommendation_reason_cached, with the external chat-completion
call outcome passed in as data. Returns the reason string together with a flag
recording whether an external call was attempted. -/
def generate_recommendation_reason_cached (openai_api_key : String)
    (call_result : Except Unit String) : String × Bool :=
  if openai_api_key == "" then (fallback_no_credential, false)
  else
    match call_result with
    | Except.ok reason => (reason, true)
    | Except.error _ => (fallback_on_error, true)

/-- One entry of the in-memory cache of utils/cache.py: key, value, expiry. -/
structure CacheEntry where
  key : String
  value : String
  expiry : ℚ
deriving Repr, DecidableEq

/-- CacheManager.get for the memory backend: a stored value is returned only
while its expiry lies in the future. -/
def cache_get (now : ℚ) (entries : List CacheEntry) (k : String) : Option String :=
  match entries.find? (fun e => e.key == k) with
  | none => none
  | some e => if now < e.expiry then some e.value else none

/-- CacheManager.set for the memory backend: stores the value under the key
with expiry now + ttl, replacing any previous entry for that key. -/
def cache_set (now ttl : ℚ) (entries : List CacheEntry) (k v : String) : List CacheEntry :=
  ⟨k, v, now + ttl⟩ :: entries.filter (fun e => !(e.key == k))

/-- The cached decorator of utils/cache.py: on a hit the cached string is
returned unchanged; on a miss the wrapped function runs and its result is
stored. The key is the deterministic key function applied to the argument.
The Bool records whether the wrapped function was invoked. -/
def cached_call {α : Type} (keyf : α → String) (f : α → String) (ttl now : ℚ)
    (entries : List CacheEntry) (x : α) : String × List CacheEntry × Bool :=
  match cache_get now entries (keyf x) with
  | some v => (v, entries, false)
  | none => (f x, cache_set now ttl entries (keyf x) (f x), true)

/-- models/recommendation.py RecommendationRequest for the filter-based
endpoint (enum values as strings). -/
structure RecommendationRequest where
  user_location_lat : Option ℚ
  user_location_long : Option ℚ
  max_distance_km : ℚ
  preferred_tour_type : Option String
  preferred_time_of_day : Option (List String)
  preferred_season : Option (List String)
  group_type : Option String
  max_price_range : Option String
  category_preference : Option String
  limit : Nat
deriving Repr, DecidableEq

/-- The keys of the filters_applied dict built by get_recommendations; each key
is recorded under exactly the condition guarding the corresponding query
clause. The location clause requires both coordinates to be truthy. -/
def filters_applied (r : RecommendationRequest) : List String :=
  (if qTruthy r.user_location_lat && qTruthy r.user_location_long then ["location"] else []) ++
  (if r.preferred_tour_type.isSome then ["tour_type"] else []) ++
  (if !(r.preferred_time_of_day.getD []).isEmpty then ["time_of_day"] else []) ++
  (if !(r.preferred_season.getD []).isEmpty then ["season"] else []) ++
  (if r.group_type.isSome then ["group_type"] else []) ++
  (if r.max_price_range.isSome then ["max_price"] else []) ++
  (if strTruthy r.category_preference then ["category"] else [])

/-! Concrete instances used by the theorems below. -/

/-- A catalog row used for the scorer bound examples. -/
def c6_tour : Tour :=
  { id := 5, name := "t", lat := 0, long := 0, pricing_range_usd := "0-50 USD",
    category_name := "c", subcategory_name := "s", time_of_day_trip_type := [],
    tour_type := "outdoor", season := [], group_type_suitability := [], rating := none }

/-- A request that dislikes tour 5 and carries no location or preferences. -/
def c6_req : SmartRecommendationRequest :=
  { lat := none, lon := none, hour := 10, month := 6, preferences := none,
    feedback := some { liked_tours := none, disliked_tours := some [5] }, limit := 10 }

/-- A request supplying latitude 0.0 on the equator, with a tour type filter. -/
def c10_req : RecommendationRequest :=
  { user_location_lat := some 0, user_location_long := some 50, max_distance_km := 100,
    preferred_tour_type := some "outdoor", preferred_time_of_day := none,
    preferred_season := none, group_type := none, max_price_range := none,
    category_preference := none, limit := 10 }

/-- C1: for every smart-recommendation request with limit L, the list produced
by ranking and truncation has length at most L. -/
theorem smart_limit_bound (rows : List (Tour × ℚ)) (req : SmartRecommendationRequest)
    (wcond : Option String) :
    (rank_and_select_tours rows req wcond).length ≤ req.limit := by
  unfold rank_and_select_tours
  exact List.length_take_le req.limit (sort_desc (row_score req wcond) rows)

/-- C4: a store failure in a tier behaves exactly like an empty result for that
tier (the try/except falls through to the next stage), and when every tier
fails or yields nothing the selector returns the empty list instead of an
error. -/
theorem tier_errors_fall_through :
    (∀ next : List Int, tier_step (Except.error ()) next = next) ∧
    (∀ next : List Int, tier_step (Except.ok []) next = next) ∧
    (∀ (pred : Tour → Bool) (catalog : List Tour),
        exec_tier true pred catalog = Except.error ()) ∧
    (∀ (catalog : List Tour) (g : GeoFn) (req : SmartRecommendationRequest)
        (ctx : DerivedContext), get_candidate_tours catalog g req ctx true true true = []) ∧
    (∀ (g : GeoFn) (req : SmartRecommendationRequest) (ctx : DerivedContext)
        (q1 q2 q3 : Bool), get_candidate_tours [] g req ctx q1 q2 q3 = []) := by
  refine ⟨fun next => rfl, fun next => rfl, fun pred catalog => rfl, ?_, ?_⟩
  · intro catalog g req ctx
    cases h : has_location req <;> simp [get_candidate_tours, exec_tier, tier_step, h]
  · intro g req ctx q1 q2 q3
    cases q1 <;> cases q2 <;> cases q3 <;> cases h : has_location req <;>
      simp [get_candidate_tours, exec_tier, tier_step, h]

/-- C6: the total score is capped at 100 for every tour and request, while no
floor is enforced: a disliked tour takes the fixed -50 feedback penalty and its
total can be negative. -/
theorem score_capped_no_floor :
    (∀ (t : Tour) (dm : ℚ) (req : SmartRecommendationRequest) (wcond : Option String),
        calculate_tour_score t dm req wcond ≤ 100) ∧
    (5 : Int) ∈ disliked_ids c6_req.feedback ∧
    get_feedback_score c6_tour c6_req = -50 ∧
    calculate_tour_score c6_tour 0 c6_req none < 0 := by
  refine ⟨fun t dm req wcond => ?_, by decide, by decide, ?_⟩
  · unfold calculate_tour_score
    exact min_le_right _ _
  · norm_num [calculate_tour_score, location_score, preference_score,
      get_weather_compatibility_score, get_time_compatibility_score,
      get_feedback_score, c6_tour, c6_req, strTruthy, min_def]
    simp only [if_neg (show ¬("outdoor" : String) = "indoor" from by decide)]
    rw [if_pos (by norm_num)]
    norm_num

/-- C8 counterexample: the no-credential path and the failure path return two
different fixed fallback strings, not one and the same fallback string. -/
theorem reason_fallbacks_differ :
    generate_recommendation_reason_cached "" (Except.error ()) = (fallback_no_credential, false) ∧
    generate_recommendation_reason_cached "sk-test" (Except.error ()) = (fallback_on_error, true) ∧
    fallback_no_credential ≠ fallback_on_error := by
  exact ⟨rfl, rfl, by decide⟩

/-- C8 amended: the reason generator is total; with no credential it returns
its fixed no-credential fallback without attempting an external call, and on a
failing external call it returns its fixed error fallback. -/
theorem reason_never_raises (key : String) (c : Except Unit String) (hk : key ≠ "") :
    generate_recommendation_reason_cached "" c = (fallback_no_credential, false) ∧
    generate_recommendation_reason_cached key (Except.error ()) = (fallback_on_error, true) := by
  constructor
  · rfl
  · have hb : (key == "") = false := by simpa using hk
    simp [generate_recommendation_reason_cached, hb]

/-- C8 witness: the amended fallback behaviour at a concrete key and call
outcome. -/
theorem reason_never_raises_witness :
    generate_recommendation_reason_cached "" (Except.ok "x") = (fallback_no_credential, false) ∧
    generate_recommendation_reason_cached "sk-live" (Except.error ()) = (fallback_on_error, true) :=
  reason_never_raises "sk-live" (Except.ok "x") (by decide)

/-- C10: the location filter of get_recommendations is recorded exactly when
both coordinates are truthy, and a request with latitude 0.0 silently loses
the distance filter while its other filters are still applied. -/
theorem location_filter_truthiness :
    (∀ r : RecommendationRequest,
        "location" ∈ filters_applied r ↔
          (qTruthy r.user_location_lat && qTruthy r.user_location_long) = true) ∧
    "location" ∉ filters_applied c10_req ∧
    "tour_type" ∈ filters_applied c10_req ∧
    c10_req.user_location_lat = some 0 := by
  refine ⟨fun r => ?_, by decide, by decide, rfl⟩
  unfold filters_applied
  split_ifs <;> simp_all

/-- Distance oracle that reports every row at distance 0. -/
def c2_geo : GeoFn := fun _ _ _ _ => 0

/-- A tour only suitable at night, so that tiers 1 and 2 reject it on the
time-of-day clause. -/
def c2_tour : Tour :=
  { id := 5, name := "n", lat := 0, long := 0, pricing_range_usd := "0-50 USD",
    category_name := "c", subcategory_name := "s", time_of_day_trip_type := ["night"],
    tour_type := "outdoor", season := [], group_type_suitability := [], rating := none }

/-- A one-row catalog for the tier-3 leak example. -/
def c2_catalog : List Tour := [c2_tour]

/-- A located morning request that dislikes tour 5. -/
def c2_req : SmartRecommendationRequest :=
  { lat := some 40, lon := some (-74), hour := 10, month := 6, preferences := none,
    feedback := some { liked_tours := none, disliked_tours := some [5] }, limit := 10 }

/-- Context derived for c2_req when the weather collaborator reports an
unrecognised condition, which adds no weather clause. -/
def c2_ctx : DerivedContext :=
  { weather := some { condition := "Fog", temperature_celsius := 20 },
    time_of_day := "morning", season := "Summer" }

/-- C2: a disliked tour id never survives the tier 1 or tier 2 filters, which
carry the disliked-tour exclusion clause, while the radius-only tier 3 query
can return it, as the concrete run shows. -/
theorem disliked_excluded_tiers_one_two :
    (∀ (g : GeoFn) (req : SmartRecommendationRequest) (ctx : DerivedContext)
        (catalog : List Tour) (d : Int), d ∈ disliked_ids req.feedback →
        d ∉ (catalog.filter (tier1_pred g req ctx)).map (fun t => t.id) ∧
        d ∉ (catalog.filter (tier2_pred g req ctx)).map (fun t => t.id)) ∧
    get_candidate_tours c2_catalog c2_geo c2_req c2_ctx false false false = [5] ∧
    (5 : Int) ∈ disliked_ids c2_req.feedback := by
  refine ⟨?_, ?_, by decide⟩
  case refine_2 =>
    simp [get_candidate_tours, exec_tier, tier_step, has_location, c2_req, c2_catalog,
      c2_ctx, c2_geo, c2_tour, tier1_pred, tier2_pred, tier3_pred, radius_pred,
      build_distance_query, weather_pred, weather_filter, prefs_pred, feedback_pred,
      disliked_ids, List.filter]
  intro g req ctx catalog d hd
  have hne : (disliked_ids req.feedback).isEmpty = false := by
    cases h : disliked_ids req.feedback with
    | nil => rw [h] at hd; cases hd
    | cons a l => rfl
  have hfb : ∀ t : Tour, feedback_pred req.feedback t = true → t.id ≠ d := by
    intro t ht hid
    rw [feedback_pred, hne] at ht
    simp at ht
    exact ht (hid ▸ hd)
  constructor <;>
  · intro hm
    obtain ⟨t, htf, hid⟩ := List.mem_map.mp hm
    obtain ⟨-, hp⟩ := List.mem_filter.mp htf
    simp only [tier1_pred, tier2_pred, Bool.and_eq_true] at hp
    exact hfb t hp.2 hid

/-- C2 witness: the tier 1 and tier 2 exclusion at the concrete request that
dislikes tour 5. -/
theorem disliked_excluded_tiers_one_two_witness :
    (5 : Int) ∉ (c2_catalog.filter (tier1_pred c2_geo c2_req c2_ctx)).map (fun t => t.id) ∧
    (5 : Int) ∉ (c2_catalog.filter (tier2_pred c2_geo c2_req c2_ctx)).map (fun t => t.id) :=
  disliked_excluded_tiers_one_two.1 c2_geo c2_req c2_ctx c2_catalog 5 (by decide)

/-- A located request used to exhibit the weather failure path. -/
def c3_req : SmartRecommendationRequest :=
  { lat := some 40, lon := some (-74), hour := 10, month := 6, preferences := none,
    feedback := none, limit := 5 }

/-- Distance oracle for the weather failure example. -/
def c3_geo : GeoFn := fun _ _ _ _ => 0

/-- A request without coordinates used by the C3 witness. -/
def c3_req_no_loc : SmartRecommendationRequest :=
  { lat := none, lon := some 3, hour := 10, month := 6, preferences := none,
    feedback := none, limit := 5 }

/-- C3 counterexample: with both coordinates present, a failing weather call
makes context derivation fail and the whole pipeline returns that failure to
its caller instead of omitting weather. -/
theorem weather_failure_propagates :
    derive_context c3_req (Except.error ()) = Except.error () ∧
    get_smart_recommendations [] c3_geo (Except.error ()) (fun _ => "r") c3_req
      false false false = Except.error () :=
  ⟨rfl, rfl⟩

/-- C3 amended: weather is omitted without error exactly when a coordinate is
absent (and then the weather clause constrains nothing); when both coordinates
are present a failing weather call propagates out of context derivation. -/
theorem weather_omitted_or_propagated
    (req : SmartRecommendationRequest) (w : Except Unit WeatherInfo)
    (h : req.lat = none ∨ req.lon = none) :
    derive_context req w =
      Except.ok ⟨none, time_of_day_of req.hour, season_of req.month⟩ ∧
    (∀ t : Tour, weather_pred none t = true) ∧
    (∀ (r : SmartRecommendationRequest) (la lo : ℚ), r.lat = some la → r.lon = some lo →
        derive_context r (Except.error ()) = Except.error ()) := by
  refine ⟨?_, fun t => rfl, fun r la lo hla hlo => ?_⟩
  · unfold derive_context
    rcases h with h | h
    · rw [h]
    · rw [h]
      cases req.lat <;> rfl
  · unfold derive_context
    rw [hla, hlo]

/-- C3 witness: the amended behaviour at a concrete request lacking a
latitude. -/
theorem weather_omitted_or_propagated_witness :
    derive_context c3_req_no_loc (Except.ok ⟨"Clear", 20⟩) =
      Except.ok ⟨none, time_of_day_of c3_req_no_loc.hour, season_of c3_req_no_loc.month⟩ ∧
    (∀ t : Tour, weather_pred none t = true) ∧
    (∀ (r : SmartRecommendationRequest) (la lo : ℚ), r.lat = some la → r.lon = some lo →
        derive_context r (Except.error ()) = Except.error ()) :=
  weather_omitted_or_propagated c3_req_no_loc (Except.ok ⟨"Clear", 20⟩) (Or.inl rfl)

/-- A night-only tour for the missing-location example. -/
def c5_tour : Tour :=
  { id := 1, name := "n", lat := 0, long := 0, pricing_range_usd := "0-50 USD",
    category_name := "c", subcategory_name := "s", time_of_day_trip_type := ["night"],
    tour_type := "outdoor", season := [], group_type_suitability := [], rating := none }

/-- A one-row catalog for the missing-location example. -/
def c5_catalog : List Tour := [c5_tour]

/-- Distance oracle for the missing-location example. -/
def c5_geo : GeoFn := fun _ _ _ _ => 0

/-- A morning request without coordinates. -/
def c5_req : SmartRecommendationRequest :=
  { lat := none, lon := none, hour := 10, month := 6, preferences := none,
    feedback := none, limit := 10 }

/-- Context derived for c5_req: no weather, morning. -/
def c5_ctx : DerivedContext := { weather := none, time_of_day := "morning", season := "Summer" }

/-- C5 counterexample: with no location and no store failures, tier 1 is empty
because of the time-of-day clause and the selector returns nothing, although
the catalog is nonempty, so a filters-dropped tier 3 without a radius clause
would have matched the row; tiers 2 and 3 were not attempted. -/
theorem no_location_skips_fallback_tiers :
    get_candidate_tours c5_catalog c5_geo c5_req c5_ctx false false false = [] ∧
    c5_catalog.map (fun t => t.id) = [1] ∧
    (c5_catalog.filter (tier1_pred c5_geo c5_req c5_ctx)).isEmpty = true := by
  refine ⟨by decide, by decide, by decide⟩

/-- C5 amended: when either coordinate is absent, only tier 1 is attempted
with its radius clause omitted; tiers 2 and 3 are skipped, so the selector
reduces to the single tier 1 step with empty fallback. -/
theorem no_location_only_tier_one (catalog : List Tour) (g : GeoFn)
    (req : SmartRecommendationRequest) (ctx : DerivedContext) (q1 q2 q3 : Bool)
    (h : req.lat = none ∨ req.lon = none) :
    get_candidate_tours catalog g req ctx q1 q2 q3 =
      tier_step (exec_tier q1 (tier1_pred g req ctx) catalog) [] := by
  have hl : has_location req = false := by
    rcases h with h | h <;> simp [has_location, h]
  simp [get_candidate_tours, hl]

/-- C5 witness: the amended reduction at the concrete location-free request,
with a failing tier 1 store call. -/
theorem no_location_only_tier_one_witness :
    get_candidate_tours c5_catalog c5_geo c5_req c5_ctx true false false =
      tier_step (exec_tier true (tier1_pred c5_geo c5_req c5_ctx) c5_catalog) [] :=
  no_location_only_tier_one c5_catalog c5_geo c5_req c5_ctx true false false (Or.inl rfl)

/-! Structural lemmas about the stable descending sort used by the ranking. -/

/-- Inserting an element permutes it to the front. -/
theorem insert_desc_perm {α : Type} (k : α → ℚ) (x : α) (l : List α) :
    (insert_desc k x l).Perm (x :: l) := by
  induction l with
  | nil => exact List.Perm.refl _
  | cons y ys ih =>
    unfold insert_desc
    by_cases h : k x < k y
    · rw [if_pos h]
      exact (ih.cons y).trans (List.Perm.swap x y ys)
    · rw [if_neg h]

/-- Insertion preserves the descending pairwise ordering of keys. -/
theorem pairwise_insert_desc {α : Type} (k : α → ℚ) (x : α) (l : List α)
    (hl : l.Pairwise (fun a b => k b ≤ k a)) :
    (insert_desc k x l).Pairwise (fun a b => k b ≤ k a) := by
  induction l with
  | nil => simp [insert_desc]
  | cons y ys ih =>
    rw [List.pairwise_cons] at hl
    obtain ⟨hy, hys⟩ := hl
    unfold insert_desc
    by_cases h : k x < k y
    · rw [if_pos h]
      rw [List.pairwise_cons]
      refine ⟨?_, ih hys⟩
      intro b hb
      have hb2 := (insert_desc_perm k x ys).mem_iff.mp hb
      rcases List.mem_cons.mp hb2 with rfl | hbys
      · exact le_of_lt h
      · exact hy b hbys
    · rw [if_neg h]
      rw [List.pairwise_cons]
      refine ⟨?_, List.pairwise_cons.mpr ⟨hy, hys⟩⟩
      intro b hb
      rcases List.mem_cons.mp hb with rfl | hbys
      · exact not_lt.mp h
      · exact le_trans (hy b hbys) (not_lt.mp h)

/-- Insertion respects the class of elements sharing one key value: the
inserted element lands in front of its own class and no other class moves. -/
theorem filter_insert_desc {α : Type} (k : α → ℚ) (s : ℚ) (x : α) (l : List α) :
    (insert_desc k x l).filter (fun a => k a == s) =
      if k x == s then x :: l.filter (fun a => k a == s)
      else l.filter (fun a => k a == s) := by
  induction l with
  | nil =>
    simp only [insert_desc, List.filter]
    cases h : (k x == s) <;> simp [h]
  | cons y ys ih =>
    unfold insert_desc
    by_cases h : k x < k y
    · rw [if_pos h, List.filter_cons, ih, List.filter_cons]
      cases hy : (k y == s) with
      | true =>
        have hys : k y = s := by simpa using hy
        have hx : (k x == s) = false := by
          have hne : ¬ k x = s := by
            intro hxx
            rw [hxx, hys] at h
            exact lt_irrefl s h
          simpa using hne
        simp [hy, hx]
      | false => simp [hy]
    · rw [if_neg h, List.filter_cons, List.filter_cons]

/-- The stable sort is pairwise descending in its key. -/
theorem sort_desc_pairwise {α : Type} (k : α → ℚ) (l : List α) :
    (sort_desc k l).Pairwise (fun a b => k b ≤ k a) := by
  induction l with
  | nil => simp [sort_desc]
  | cons x xs ih => exact pairwise_insert_desc k x _ ih

/-- The stable sort permutes its input. -/
theorem sort_desc_perm {α : Type} (k : α → ℚ) (l : List α) :
    (sort_desc k l).Perm l := by
  induction l with
  | nil => exact List.Perm.refl _
  | cons x xs ih => exact (insert_desc_perm k x _).trans (ih.cons x)

/-- Stability: within each class of equal keys the sorted list keeps exactly
the input order. -/
theorem sort_desc_stable_filter {α : Type} (k : α → ℚ) (s : ℚ) (l : List α) :
    (sort_desc k l).filter (fun a => k a == s) = l.filter (fun a => k a == s) := by
  induction l with
  | nil => rfl
  | cons x xs ih =>
    unfold sort_desc
    rw [filter_insert_desc, ih, List.filter_cons]

/-- A morning request with no feedback, used for the tie-break example. -/
def c7_req : SmartRecommendationRequest :=
  { lat := none, lon := none, hour := 10, month := 6, preferences := none,
    feedback := none, limit := 10 }

/-- A morning outdoor tour with id 7, fetched first. -/
def c7_tour_a : Tour :=
  { id := 7, name := "a", lat := 0, long := 0, pricing_range_usd := "0-50 USD",
    category_name := "c", subcategory_name := "s", time_of_day_trip_type := ["morning"],
    tour_type := "outdoor", season := [], group_type_suitability := [], rating := none }

/-- The same tour shape with the smaller id 3, fetched second. -/
def c7_tour_b : Tour :=
  { id := 3, name := "b", lat := 0, long := 0, pricing_range_usd := "0-50 USD",
    category_name := "c", subcategory_name := "s", time_of_day_trip_type := ["morning"],
    tour_type := "outdoor", season := [], group_type_suitability := [], rating := none }

/-- C7 counterexample: two candidate rows with equal scores keep their fetched
order (id 7 before id 3), so equal-score ties are not broken by ascending tour
id. -/
theorem ranking_ties_keep_fetch_order :
    row_score c7_req none (c7_tour_a, 0) = row_score c7_req none (c7_tour_b, 0) ∧
    (rank_and_select_tours [(c7_tour_a, 0), (c7_tour_b, 0)] c7_req none).map
      (fun r => r.1.id) = [7, 3] := by
  have ha : row_score c7_req none (c7_tour_a, 0) = 23 := by
    simp [row_score, calculate_tour_score, location_score, preference_score,
      get_weather_compatibility_score, get_time_compatibility_score,
      get_feedback_score, c7_req, c7_tour_a, strTruthy, time_of_day_of, min_def]
    rw [if_neg (show ¬((4 : ℚ) < 0) by norm_num),
      if_pos (show ((8 : ℚ) + 15 + 0 ≤ 100) by norm_num)]
    norm_num
  have hb : row_score c7_req none (c7_tour_b, 0) = 23 := by
    simp [row_score, calculate_tour_score, location_score, preference_score,
      get_weather_compatibility_score, get_time_compatibility_score,
      get_feedback_score, c7_req, c7_tour_b, strTruthy, time_of_day_of, min_def]
    rw [if_neg (show ¬((4 : ℚ) < 0) by norm_num),
      if_pos (show ((8 : ℚ) + 15 + 0 ≤ 100) by norm_num)]
    norm_num
  refine ⟨by rw [ha, hb], ?_⟩
  have hs : sort_desc (row_score c7_req none) [(c7_tour_a, 0), (c7_tour_b, 0)] =
      [(c7_tour_a, 0), (c7_tour_b, 0)] := by
    simp only [sort_desc, insert_desc]
    rw [ha, hb]
    simp
  unfold rank_and_select_tours
  rw [hs]
  simp [c7_req, c7_tour_a, c7_tour_b]

/-- C7 amended: the returned tours are the fetched rows stably sorted in
descending score order and truncated to the limit: scores are pairwise
descending, rows with equal scores keep the order in which they were fetched,
and the sorted list is a permutation of the fetched rows. -/
theorem ranking_sorted_stable (rows : List (Tour × ℚ))
    (req : SmartRecommendationRequest) (wcond : Option String) (s : ℚ) :
    (sort_desc (row_score req wcond) rows).Pairwise
      (fun a b => row_score req wcond b ≤ row_score req wcond a) ∧
    (sort_desc (row_score req wcond) rows).filter (fun r => row_score req wcond r == s) =
      rows.filter (fun r => row_score req wcond r == s) ∧
    (sort_desc (row_score req wcond) rows).Perm rows ∧
    rank_and_select_tours rows req wcond = (sort_desc (row_score req wcond) rows).take req.limit :=
  ⟨sort_desc_pairwise _ _, sort_desc_stable_filter _ _ _, sort_desc_perm _ _, rfl⟩

/-- C9: a first call on a fresh key invokes the wrapped generator and caches
its result; a second call with identical inputs before the TTL expires returns
the identical cached string without invoking the generator again. -/
theorem reason_cache_idempotent {α : Type} (keyf : α → String) (f : α → String)
    (t1 t2 : ℚ) (s0 : List CacheEntry) (x : α)
    (h0 : cache_get t1 s0 (keyf x) = none)
    (h2 : t2 < t1 + 1800) :
    (cached_call keyf f 1800 t1 s0 x).1 = f x ∧
    (cached_call keyf f 1800 t1 s0 x).2.2 = true ∧
    (cached_call keyf f 1800 t2 (cached_call keyf f 1800 t1 s0 x).2.1 x).1 =
      (cached_call keyf f 1800 t1 s0 x).1 ∧
    (cached_call keyf f 1800 t2 (cached_call keyf f 1800 t1 s0 x).2.1 x).2.2 = false := by
  have e1 : cached_call keyf f 1800 t1 s0 x =
      (f x, cache_set t1 1800 s0 (keyf x) (f x), true) := by
    unfold cached_call
    rw [h0]
  have e2 : cache_get t2 (cache_set t1 1800 s0 (keyf x) (f x)) (keyf x) = some (f x) := by
    unfold cache_get cache_set
    rw [List.find?_cons_of_pos _ (by simp)]
    simp [h2]
  rw [e1]
  unfold cached_call
  rw [e2]
  exact ⟨rfl, rfl, rfl, rfl⟩

/-- C9 witness: the idempotent second call at a concrete key, generator and
pair of timestamps 1799 seconds apart. -/
theorem reason_cache_idempotent_witness :
    (cached_call (fun _ : Nat => "openai_recommendation_reason:abc")
      (fun _ => "Great tour.") 1800 0 [] 0).1 = "Great tour." ∧
    (cached_call (fun _ : Nat => "openai_recommendation_reason:abc")
      (fun _ => "Great tour.") 1800 0 [] 0).2.2 = true ∧
    (cached_call (fun _ : Nat => "openai_recommendation_reason:abc")
      (fun _ => "Great tour.") 1800 1799
      ((cached_call (fun _ : Nat => "openai_recommendation_reason:abc")
        (fun _ => "Great tour.") 1800 0 [] 0)).2.1 0).1 =
      (cached_call (fun _ : Nat => "openai_recommendation_reason:abc")
        (fun _ => "Great tour.") 1800 0 [] 0).1 ∧
    (cached_call (fun _ : Nat => "openai_recommendation_reason:abc")
      (fun _ => "Great tour.") 1800 1799
      ((cached_call (fun _ : Nat => "openai_recommendation_reason:abc")
        (fun _ => "Great tour.") 1800 0 [] 0)).2.1 0).2.2 = false :=
  reason_cache_idempotent (fun _ : Nat => "openai_recommendation_reason:abc")
    (fun _ => "Great tour.") 0 1799 [] 0 rfl (by norm_num)

end Voyager
